import Mathlib

/-
Verification of the sphere module (graphene-sphere.c) of the graphene
geometry library.  The C float type is idealised as the real numbers and
pointers that may be NULL are modelled with Option.  The Vector3, Point3D
and Box collaborators live outside the sphere module; their operations are
modelled from the specification of their interfaces.
-/

noncomputable section

/-- Modelled from the spec: the external Vector3 collaborator
(graphene_vec3_t), an immutable 3-component vector; float components are
idealised as real numbers. -/
structure graphene_vec3_t where
  x : ℝ
  y : ℝ
  z : ℝ

/-- Modelled from the spec: Point3D, a plain (x, y, z) float record. -/
structure graphene_point3d_t where
  x : ℝ
  y : ℝ
  z : ℝ

/-- The sphere type of graphene-sphere.c: a center vector and a radius. -/
structure graphene_sphere_t where
  center : graphene_vec3_t
  radius : ℝ

/-- Modelled from the spec: Vector3 initFromComponents. -/
def graphene_vec3_init (x y z : ℝ) : graphene_vec3_t := ⟨x, y, z⟩

/-- Modelled from the spec: the Vector3 zero vector. -/
def graphene_vec3_zero : graphene_vec3_t := ⟨0, 0, 0⟩

/-- Modelled from the spec: Vector3 initFromVector, a component copy. -/
def graphene_vec3_init_from_vec3 (v : graphene_vec3_t) : graphene_vec3_t := v

/-- Modelled from the spec: Vector3 addition, componentwise. -/
def graphene_vec3_add (a b : graphene_vec3_t) : graphene_vec3_t :=
  ⟨a.x + b.x, a.y + b.y, a.z + b.z⟩

/-- Modelled from the spec: Vector3 subtraction, componentwise. -/
def graphene_vec3_subtract (a b : graphene_vec3_t) : graphene_vec3_t :=
  ⟨a.x - b.x, a.y - b.y, a.z - b.z⟩

/-- Modelled from the spec: Vector3 dot product. -/
def graphene_vec3_dot (a b : graphene_vec3_t) : ℝ :=
  a.x * b.x + a.y * b.y + a.z * b.z

/-- Modelled from the spec: exact (non-fuzzy) lanewise equality of the SIMD
values backing two vectors.  The fourth SIMD lane of a graphene_vec3_t is
zero in both operands, so the comparison reduces to equality of the three
components. -/
def graphene_simd4f_cmp_eq (a b : graphene_vec3_t) : Prop :=
  a.x = b.x ∧ a.y = b.y ∧ a.z = b.z

/-- The C fmaxf intrinsic on ideal reals (the model has no NaN). -/
def fmaxf (a b : ℝ) : ℝ := max a b

/-- The C sqrtf intrinsic on ideal reals. -/
def sqrtf (x : ℝ) : ℝ := Real.sqrt x

/-- Modelled from the spec: the external Box collaborator, an axis-aligned
bounding box with min and max corners. -/
structure graphene_box_t where
  min : graphene_vec3_t
  max : graphene_vec3_t

/-- Modelled from the spec: Box initFromPoints builds the AABB of the given
points by componentwise min and max.  For an empty array the result is the
degenerate empty box, whose geometric center is (0, 0, 0), exactly as the
spec states for the empty-input edge case. -/
def graphene_box_init_from_points (points : List graphene_point3d_t) :
    graphene_box_t :=
  match points with
  | [] => ⟨⟨0, 0, 0⟩, ⟨0, 0, 0⟩⟩
  | p :: ps =>
      ps.foldl
        (fun box q =>
          ⟨⟨min box.min.x q.x, min box.min.y q.y, min box.min.z q.z⟩,
           ⟨max box.max.x q.x, max box.max.y q.y, max box.max.z q.z⟩⟩)
        ⟨⟨p.x, p.y, p.z⟩, ⟨p.x, p.y, p.z⟩⟩

/-- Modelled from the spec: Box center, the geometric center of the box,
componentwise (min + max) / 2. -/
def graphene_box_get_center (box : graphene_box_t) : graphene_point3d_t :=
  ⟨(box.min.x + box.max.x) / 2,
   (box.min.y + box.max.y) / 2,
   (box.min.z + box.max.z) / 2⟩

/-- graphene_sphere_init from graphene-sphere.c: a NULL center yields the
zero vector, otherwise the center is copied componentwise from the point;
the radius is stored verbatim. -/
def graphene_sphere_init (center : Option graphene_point3d_t) (radius : ℝ) :
    graphene_sphere_t :=
  match center with
  | none => { center := graphene_vec3_init_from_vec3 graphene_vec3_zero,
              radius := radius }
  | some c => { center := graphene_vec3_init c.x c.y c.z, radius := radius }

/-- distance_sq from graphene-sphere.c: the squared distance between two
vectors, computed as dot(p1 - p2, p1 - p2). -/
def distance_sq (p1 p2 : graphene_vec3_t) : ℝ :=
  let delta := graphene_vec3_subtract p1 p2
  graphene_vec3_dot delta delta

/-- graphene_sphere_init_from_points from graphene-sphere.c.  The
(n_points, points) pair of the C signature is modelled as a list.  The
center is the explicit center when one is supplied, otherwise the center of
the AABB of the points; the radius is the square root of the running
fmaxf-maximum (starting at 0) of the squared distances from the chosen
center to the points. -/
def graphene_sphere_init_from_points (points : List graphene_point3d_t)
    (center : Option graphene_point3d_t) : graphene_sphere_t :=
  let c : graphene_vec3_t :=
    match center with
    | some c0 => graphene_vec3_init c0.x c0.y c0.z
    | none =>
        let box := graphene_box_init_from_points points
        let cp := graphene_box_get_center box
        graphene_vec3_init cp.x cp.y cp.z
  let max_radius_sq : ℝ :=
    points.foldl
      (fun acc point =>
        fmaxf acc (distance_sq c (graphene_vec3_init point.x point.y point.z)))
      0
  { center := c, radius := sqrtf max_radius_sq }

/-- graphene_sphere_is_empty from graphene-sphere.c: the C body is
`s != NULL && s->radius <= 0`, so a NULL sphere yields false. -/
def graphene_sphere_is_empty (s : Option graphene_sphere_t) : Prop :=
  match s with
  | none => False
  | some sp => sp.radius ≤ 0

/-- graphene_sphere_contains_point from graphene-sphere.c: true iff the
squared distance from the center to the point is at most radius * radius. -/
def graphene_sphere_contains_point (s : graphene_sphere_t)
    (point : graphene_point3d_t) : Prop :=
  let tmp := graphene_vec3_init point.x point.y point.z
  let radius_sq := s.radius * s.radius
  distance_sq s.center tmp ≤ radius_sq

/-- graphene_sphere_distance from graphene-sphere.c: the signed distance of
the point from the surface, sqrtf of the squared center distance minus the
radius. -/
def graphene_sphere_distance (s : graphene_sphere_t)
    (point : graphene_point3d_t) : ℝ :=
  let tmp := graphene_vec3_init point.x point.y point.z
  sqrtf (distance_sq s.center tmp) - s.radius

/-- graphene_sphere_translate from graphene-sphere.c.  The C body assigns
only res->center (the sum of the source center and the offset); it never
assigns res->radius, so the output keeps whatever radius the caller's res
already held.  The pre-state of the caller-allocated res is threaded as an
explicit argument. -/
def graphene_sphere_translate (s : graphene_sphere_t)
    (point : graphene_point3d_t) (res : graphene_sphere_t) :
    graphene_sphere_t :=
  let tmp := graphene_vec3_init point.x point.y point.z
  { res with center := graphene_vec3_add s.center tmp }

/-- graphene_sphere_equal from graphene-sphere.c: reference identity
shortcut, NULL checks, then exact radius equality and exact lanewise center
comparison.  In this value model the identity shortcut coincides with the
componentwise comparison because ideal reals have no NaN. -/
def graphene_sphere_equal (a b : Option graphene_sphere_t) : Prop :=
  match a, b with
  | none, none => True
  | none, some _ => False
  | some _, none => False
  | some sa, some sb =>
      sa.radius = sb.radius ∧ graphene_simd4f_cmp_eq sa.center sb.center

/-- The maximum squared distance from c to the points, stated independently
of the accumulator loop of the source: map each point to its squared
distance from c, then fold max from the right with base 0. -/
def maxDistSq (c : graphene_vec3_t) (points : List graphene_point3d_t) : ℝ :=
  (points.map (fun p => distance_sq c (graphene_vec3_init p.x p.y p.z))).foldr
    max 0

theorem init_le_foldl_fmaxf {α : Type} (f : α → ℝ) (l : List α) (a : ℝ) :
    a ≤ l.foldl (fun acc x => fmaxf acc (f x)) a := by
  induction l generalizing a with
  | nil => exact le_refl a
  | cons x xs ih =>
      exact le_trans (le_max_left a (f x)) (ih (fmaxf a (f x)))

theorem mem_le_foldl_fmaxf {α : Type} (f : α → ℝ) (l : List α) (x : α)
    (a : ℝ) : x ∈ l → f x ≤ l.foldl (fun acc y => fmaxf acc (f y)) a := by
  induction l generalizing a with
  | nil => intro hx; exact absurd hx (List.not_mem_nil x)
  | cons y ys ih =>
      intro hx
      rcases List.mem_cons.mp hx with h | h
      · subst h
        exact le_trans (le_max_right a (f x))
          (init_le_foldl_fmaxf f ys (fmaxf a (f x)))
      · exact ih (fmaxf a (f y)) h

theorem foldr_max_max (l : List ℝ) (a b : ℝ) :
    l.foldr max (max a b) = max a (l.foldr max b) := by
  induction l with
  | nil => rfl
  | cons x xs ih =>
      show max x (xs.foldr max (max a b)) = max a (max x (xs.foldr max b))
      rw [ih, max_left_comm]

theorem foldl_fmaxf_eq_foldr {α : Type} (f : α → ℝ) (l : List α) (a : ℝ) :
    l.foldl (fun acc x => fmaxf acc (f x)) a = (l.map f).foldr max a := by
  induction l generalizing a with
  | nil => rfl
  | cons x xs ih =>
      rw [List.foldl_cons, List.map_cons, List.foldr_cons, ih]
      show (xs.map f).foldr max (max a (f x)) = max (f x) ((xs.map f).foldr max a)
      rw [max_comm a (f x)]
      exact foldr_max_max (xs.map f) (f x) a

/-- C9: graphene_sphere_init always succeeds; a NULL center yields the zero
vector (0, 0, 0) as center, otherwise the center is copied componentwise
from the given point, and the radius argument (any real, negative values
included) is stored verbatim. -/
theorem sphere_init_spec (r : ℝ) (c : graphene_point3d_t) :
    (graphene_sphere_init none r).center = graphene_vec3_init 0 0 0 ∧
    (graphene_sphere_init (some c) r).center = graphene_vec3_init c.x c.y c.z ∧
    (graphene_sphere_init none r).radius = r ∧
    (graphene_sphere_init (some c) r).radius = r :=
  ⟨rfl, rfl, rfl, rfl⟩

/-- C5: graphene_sphere_contains_point holds iff the squared Euclidean
distance from the center to the point is at most the radius squared, and a
point whose Euclidean distance from the center is exactly the radius is
contained (inclusive boundary). -/
theorem sphere_contains_point_iff_sq_dist (s : graphene_sphere_t)
    (p : graphene_point3d_t) :
    (graphene_sphere_contains_point s p ↔
      (p.x - s.center.x) ^ 2 + (p.y - s.center.y) ^ 2 + (p.z - s.center.z) ^ 2 ≤
        s.radius ^ 2) ∧
    (Real.sqrt
        ((p.x - s.center.x) ^ 2 + (p.y - s.center.y) ^ 2 +
          (p.z - s.center.z) ^ 2) = s.radius →
      graphene_sphere_contains_point s p) := by
  have hE : distance_sq s.center (graphene_vec3_init p.x p.y p.z) =
      (p.x - s.center.x) ^ 2 + (p.y - s.center.y) ^ 2 + (p.z - s.center.z) ^ 2 := by
    simp only [distance_sq, graphene_vec3_subtract, graphene_vec3_dot,
      graphene_vec3_init]
    ring
  have hEnn : (0:ℝ) ≤
      (p.x - s.center.x) ^ 2 + (p.y - s.center.y) ^ 2 + (p.z - s.center.z) ^ 2 := by
    positivity
  constructor
  · show distance_sq s.center (graphene_vec3_init p.x p.y p.z) ≤
      s.radius * s.radius ↔ _
    rw [hE, pow_two s.radius]
  · intro h
    show distance_sq s.center (graphene_vec3_init p.x p.y p.z) ≤
      s.radius * s.radius
    rw [hE, ← h, Real.mul_self_sqrt hEnn]

/-- C5 witness: the unit sphere at the origin contains the boundary point
(1, 0, 0). -/
theorem sphere_contains_point_iff_sq_dist_witness :
    graphene_sphere_contains_point ⟨graphene_vec3_init 0 0 0, 1⟩ ⟨1, 0, 0⟩ :=
  (sphere_contains_point_iff_sq_dist ⟨graphene_vec3_init 0 0 0, 1⟩ ⟨1, 0, 0⟩).2
    (by
      show Real.sqrt (((1:ℝ) - 0) ^ 2 + ((0:ℝ) - 0) ^ 2 + ((0:ℝ) - 0) ^ 2) = 1
      norm_num)

/-- C6: graphene_sphere_distance returns the Euclidean distance from the
center to the point minus the radius; it is negative iff the point is
strictly inside (distance below the radius), zero iff the point lies
exactly on the surface, and positive iff the point is outside. -/
theorem sphere_distance_sign (s : graphene_sphere_t) (p : graphene_point3d_t) :
    graphene_sphere_distance s p =
      Real.sqrt
          ((p.x - s.center.x) ^ 2 + (p.y - s.center.y) ^ 2 +
            (p.z - s.center.z) ^ 2) - s.radius ∧
    (graphene_sphere_distance s p < 0 ↔
      Real.sqrt
          ((p.x - s.center.x) ^ 2 + (p.y - s.center.y) ^ 2 +
            (p.z - s.center.z) ^ 2) < s.radius) ∧
    (graphene_sphere_distance s p = 0 ↔
      Real.sqrt
          ((p.x - s.center.x) ^ 2 + (p.y - s.center.y) ^ 2 +
            (p.z - s.center.z) ^ 2) = s.radius) ∧
    (0 < graphene_sphere_distance s p ↔
      s.radius < Real.sqrt
          ((p.x - s.center.x) ^ 2 + (p.y - s.center.y) ^ 2 +
            (p.z - s.center.z) ^ 2)) := by
  have hE : distance_sq s.center (graphene_vec3_init p.x p.y p.z) =
      (p.x - s.center.x) ^ 2 + (p.y - s.center.y) ^ 2 + (p.z - s.center.z) ^ 2 := by
    simp only [distance_sq, graphene_vec3_subtract, graphene_vec3_dot,
      graphene_vec3_init]
    ring
  have hd : graphene_sphere_distance s p =
      Real.sqrt
          ((p.x - s.center.x) ^ 2 + (p.y - s.center.y) ^ 2 +
            (p.z - s.center.z) ^ 2) - s.radius := by
    show sqrtf (distance_sq s.center (graphene_vec3_init p.x p.y p.z)) -
        s.radius = _
    rw [sqrtf, hE]
  refine ⟨hd, ?_, ?_, ?_⟩
  · rw [hd]; exact sub_neg
  · rw [hd]; exact sub_eq_zero
  · rw [hd]; exact sub_pos

/-- C6 witness: the point (3, 0, 0) lies outside the unit sphere at the
origin, so its surface distance is positive. -/
theorem sphere_distance_sign_witness :
    0 < graphene_sphere_distance ⟨graphene_vec3_init 0 0 0, 1⟩ ⟨3, 0, 0⟩ :=
  (sphere_distance_sign ⟨graphene_vec3_init 0 0 0, 1⟩ ⟨3, 0, 0⟩).2.2.2.mpr
    (by
      show (1:ℝ) < Real.sqrt (((3:ℝ) - 0) ^ 2 + ((0:ℝ) - 0) ^ 2 + ((0:ℝ) - 0) ^ 2)
      have h9 : ((3:ℝ) - 0) ^ 2 + ((0:ℝ) - 0) ^ 2 + ((0:ℝ) - 0) ^ 2 = 3 ^ 2 := by
        norm_num
      rw [h9, Real.sqrt_sq (by norm_num)]
      norm_num)

/-- C7: graphene_sphere_equal holds for identical references (both NULL
included), fails when exactly one side is NULL, and for two present spheres
holds iff the radii are exactly equal and all three center components are
exactly equal. -/
theorem sphere_equal_spec :
    (∀ a : Option graphene_sphere_t, graphene_sphere_equal a a) ∧
    (∀ b : graphene_sphere_t, ¬ graphene_sphere_equal none (some b)) ∧
    (∀ a : graphene_sphere_t, ¬ graphene_sphere_equal (some a) none) ∧
    (∀ a b : graphene_sphere_t,
      graphene_sphere_equal (some a) (some b) ↔
        a.radius = b.radius ∧ a.center.x = b.center.x ∧
          a.center.y = b.center.y ∧ a.center.z = b.center.z) := by
  refine ⟨?_, ?_, ?_, ?_⟩
  · intro a
    cases a with
    | none => exact trivial
    | some sa => exact ⟨rfl, rfl, rfl, rfl⟩
  · intro b h; exact h
  · intro a h; exact h
  · intro a b; exact Iff.rfl

/-- C7 witness: two present spheres with the same center components and the
same radius compare equal. -/
theorem sphere_equal_spec_witness :
    graphene_sphere_equal (some ⟨graphene_vec3_init 1 2 3, 4⟩)
      (some ⟨graphene_vec3_init 1 2 3, 4⟩) :=
  sphere_equal_spec.1 (some ⟨graphene_vec3_init 1 2 3, 4⟩)

/-- C10: containment depends only on the square of the radius, so a sphere
with radius r and one with radius -r contain exactly the same points; a
sphere of radius 0 is reported empty by graphene_sphere_is_empty yet still
contains its own center point. -/
theorem sphere_contains_point_radius_parity (c : graphene_vec3_t) (r : ℝ)
    (p q : graphene_point3d_t) :
    (graphene_sphere_contains_point ⟨c, r⟩ p ↔
      graphene_sphere_contains_point ⟨c, -r⟩ p) ∧
    graphene_sphere_is_empty (some ⟨c, 0⟩) ∧
    graphene_sphere_contains_point ⟨graphene_vec3_init q.x q.y q.z, 0⟩ q := by
  refine ⟨?_, le_refl 0, ?_⟩
  · show distance_sq c (graphene_vec3_init p.x p.y p.z) ≤ r * r ↔
      distance_sq c (graphene_vec3_init p.x p.y p.z) ≤ -r * -r
    rw [neg_mul_neg]
  · show distance_sq (graphene_vec3_init q.x q.y q.z)
        (graphene_vec3_init q.x q.y q.z) ≤ (0:ℝ) * 0
    simp [distance_sq, graphene_vec3_subtract, graphene_vec3_dot,
      graphene_vec3_init]

/-- C10 witness: a sphere of radius -2 at the origin contains (1, 0, 0),
exactly as the sphere of radius 2 does. -/
theorem sphere_contains_point_radius_parity_witness :
    graphene_sphere_contains_point ⟨graphene_vec3_init 0 0 0, -2⟩ ⟨1, 0, 0⟩ :=
  ((sphere_contains_point_radius_parity (graphene_vec3_init 0 0 0) 2 ⟨1, 0, 0⟩
      ⟨0, 0, 0⟩).1).mp
    (by
      show distance_sq (graphene_vec3_init 0 0 0) (graphene_vec3_init 1 0 0) ≤
        (2:ℝ) * 2
      simp [distance_sq, graphene_vec3_subtract, graphene_vec3_dot,
        graphene_vec3_init]
      norm_num)

/-- C2 counterexample: the claim says a NULL sphere reference is reported
empty, but the C body `s != NULL && s->radius <= 0` yields false for NULL. -/
theorem sphere_is_empty_null_cex : ¬ graphene_sphere_is_empty none :=
  fun h => h

/-- C2 (amended): graphene_sphere_is_empty holds iff the sphere reference is
present and its radius is at most 0; a NULL reference yields false. -/
theorem sphere_is_empty_characterization :
    (¬ graphene_sphere_is_empty none) ∧
    (∀ sp : graphene_sphere_t,
      graphene_sphere_is_empty (some sp) ↔ sp.radius ≤ 0) :=
  ⟨fun h => h, fun _ => Iff.rfl⟩

/-- C2 witness: a present sphere of radius 0 is reported empty. -/
theorem sphere_is_empty_characterization_witness :
    graphene_sphere_is_empty (some ⟨graphene_vec3_init 0 0 0, 0⟩) :=
  (sphere_is_empty_characterization.2 ⟨graphene_vec3_init 0 0 0, 0⟩).mpr
    (le_refl 0)

/-- C3: graphene_sphere_translate adds the offset to the center but never
assigns the radius of the output sphere, so the result keeps the radius the
caller-allocated res already held (here 0) instead of the source radius 1:
the translated sphere of a radius-1 sphere comes back with radius 0. -/
theorem sphere_translate_radius_bug :
    (graphene_sphere_translate ⟨graphene_vec3_init 0 0 0, 1⟩ ⟨1, 0, 0⟩
        ⟨graphene_vec3_init 5 5 5, 0⟩).center =
      graphene_vec3_add (graphene_vec3_init 0 0 0) (graphene_vec3_init 1 0 0) ∧
    (graphene_sphere_translate ⟨graphene_vec3_init 0 0 0, 1⟩ ⟨1, 0, 0⟩
        ⟨graphene_vec3_init 5 5 5, 0⟩).radius = 0 ∧
    (graphene_sphere_translate ⟨graphene_vec3_init 0 0 0, 1⟩ ⟨1, 0, 0⟩
          ⟨graphene_vec3_init 5 5 5, 0⟩).radius ≠
      (⟨graphene_vec3_init 0 0 0, 1⟩ : graphene_sphere_t).radius := by
  refine ⟨rfl, rfl, ?_⟩
  show (0:ℝ) ≠ 1
  norm_num

/-- C1: for a non-empty point array and no explicit center, the sphere built
by graphene_sphere_init_from_points contains every input point. -/
theorem sphere_init_from_points_covers (points : List graphene_point3d_t)
    (hne : points ≠ []) (p : graphene_point3d_t) (hp : p ∈ points) :
    graphene_sphere_contains_point
      (graphene_sphere_init_from_points points none) p := by
  have key : ∀ c : graphene_vec3_t,
      distance_sq c (graphene_vec3_init p.x p.y p.z) ≤
        sqrtf (points.foldl (fun acc point => fmaxf acc
            (distance_sq c (graphene_vec3_init point.x point.y point.z))) 0) *
          sqrtf (points.foldl (fun acc point => fmaxf acc
            (distance_sq c (graphene_vec3_init point.x point.y point.z))) 0) := by
    intro c
    simp only [sqrtf]
    rw [Real.mul_self_sqrt (init_le_foldl_fmaxf
      (fun point => distance_sq c (graphene_vec3_init point.x point.y point.z))
      points 0)]
    exact mem_le_foldl_fmaxf
      (fun point => distance_sq c (graphene_vec3_init point.x point.y point.z))
      points p 0 hp
  exact key _

/-- C1 witness: the sphere built from the points (0,0,0) and (2,0,0) with no
explicit center contains the input point (2,0,0). -/
theorem sphere_init_from_points_covers_witness :
    ([⟨0, 0, 0⟩, ⟨2, 0, 0⟩] : List graphene_point3d_t) ≠ [] ∧
    graphene_sphere_contains_point
      (graphene_sphere_init_from_points [⟨0, 0, 0⟩, ⟨2, 0, 0⟩] none)
      ⟨2, 0, 0⟩ :=
  ⟨by simp,
   sphere_init_from_points_covers [⟨0, 0, 0⟩, ⟨2, 0, 0⟩] (by simp)
     ⟨2, 0, 0⟩ (by simp)⟩

/-- C4: graphene_sphere_init_from_points uses the explicit center when one
is supplied and otherwise the geometric center of the AABB of the points,
and in either case sets the radius to the square root of the maximum over
the input points of the squared Euclidean distance from the chosen center. -/
theorem sphere_init_from_points_center_radius
    (points : List graphene_point3d_t) (c0 : graphene_point3d_t) :
    ((graphene_sphere_init_from_points points (some c0)).center =
      graphene_vec3_init c0.x c0.y c0.z) ∧
    ((graphene_sphere_init_from_points points none).center =
      graphene_vec3_init
        (graphene_box_get_center (graphene_box_init_from_points points)).x
        (graphene_box_get_center (graphene_box_init_from_points points)).y
        (graphene_box_get_center (graphene_box_init_from_points points)).z) ∧
    (∀ copt : Option graphene_point3d_t,
      (graphene_sphere_init_from_points points copt).radius =
        Real.sqrt (maxDistSq
          (graphene_sphere_init_from_points points copt).center points)) := by
  refine ⟨rfl, rfl, ?_⟩
  have gen : ∀ c : graphene_vec3_t,
      sqrtf (points.foldl (fun acc point => fmaxf acc
          (distance_sq c (graphene_vec3_init point.x point.y point.z))) 0) =
        Real.sqrt (maxDistSq c points) := by
    intro c
    simp only [sqrtf, maxDistSq]
    rw [foldl_fmaxf_eq_foldr]
  intro copt
  cases copt with
  | none => exact gen _
  | some c1 => exact gen _

/-- C8: from an empty point array graphene_sphere_init_from_points builds a
sphere of radius exactly 0, centered at (0,0,0) when no explicit center is
given and at the explicit center otherwise. -/
theorem sphere_init_from_points_empty (c : graphene_point3d_t) :
    (∀ copt : Option graphene_point3d_t,
      (graphene_sphere_init_from_points [] copt).radius = 0) ∧
    (graphene_sphere_init_from_points [] none).center =
      graphene_vec3_init 0 0 0 ∧
    (graphene_sphere_init_from_points [] (some c)).center =
      graphene_vec3_init c.x c.y c.z := by
  refine ⟨?_, ?_, rfl⟩
  · intro copt
    cases copt with
    | none =>
        show sqrtf 0 = 0
        simp [sqrtf]
    | some c1 =>
        show sqrtf 0 = 0
        simp [sqrtf]
  · show graphene_vec3_init
        (graphene_box_get_center (graphene_box_init_from_points [])).x
        (graphene_box_get_center (graphene_box_init_from_points [])).y
        (graphene_box_get_center (graphene_box_init_from_points [])).z =
      graphene_vec3_init 0 0 0
    simp [graphene_box_get_center, graphene_box_init_from_points,
      graphene_vec3_init]
